import Mathlib

/-!
Verification development for the vibe-analysis transcriber service.

The definitions below are a shallow embedding of the two source files
src/app/services.py and src/app/routes.py.  External collaborators
(object storage, the ASR capability, the metadata catalog / datastore,
the notification queue) are represented by explicit "doubles": values of
type Except String α describing the outcome each collaborator produces
when the code calls it.  The control flow of the Python source — its
try/except/finally structure, the retry loop, the per-item batch loop,
and the background-task composition — is translated directly.
-/

deriving instance DecidableEq for Except

namespace VibeAnalysis

/-- Result dictionary returned by an ASR provider transcribe call
(services.py:201-206): the transcription text and the
no_speech_detected flag. -/
structure ASRResult where
  transcription : String
  nospeech : Bool
  deriving Repr, DecidableEq

/-- Body of one SQS message published by process_in_background
(routes.py:154-163 and routes.py:182-191). -/
structure TerminalEvent where
  device_id : String
  recorded_at : String
  feature_type : String
  status : String
  deriving Repr, DecidableEq

/-- A transcript row upserted into the spot_features table
(services.py:249-255). -/
structure SpotRecord where
  device_id : String
  recorded_at : String
  local_date : Option String
  local_time : Option String
  vibe_transcriber_result : String
  deriving Repr, DecidableEq

/-- Outcome of one datastore upsert call (services.py:268): the call
either raised, or returned an acknowledgment whose hasData flag records
whether response.data was non-empty. -/
inductive UpsertAck where
  | raised (msg : String)
  | ack (hasData : Bool)
  deriving Repr, DecidableEq

/-- Doubles for the persistence layer, indexed by attempt number
(0-based): ackAt k is the outcome of the k-th upsert call, checkAt k
the outcome of the read-after-write check run when attempt k is
ambiguous (ok found / raised). -/
structure UpsertEnv where
  ackAt : Nat → UpsertAck
  checkAt : Nat → Except String Bool

/-- Observable trace of the upsert retry loop: how many upsert calls
were made, the sleep durations (in seconds) executed before retries, and
the final outcome. -/
structure UpsertTrace where
  attempts : Nat
  delays : List Nat
  result : Except String Unit
  deriving Repr, DecidableEq

/-- Boolean success test for an Except outcome. -/
def exOk {α : Type} : Except String α → Bool
  | .ok _ => true
  | .error _ => false

/-- The upsert retry loop of services.py:257-301, as a function of the
retry counter.  Each iteration sleeps 1 * retry_count seconds when
retry_count is positive, calls upsert, and on an ambiguous
acknowledgment (success with no data) performs the read-after-write
check; a found row counts as success, otherwise the retry counter is
incremented and, once it reaches 3, the pending exception is re-raised.
The fuel argument bounds the recursion; the loop runs at most 3 times. -/
def upsertGo (env : UpsertEnv) : Nat → Nat → Nat → List Nat → UpsertTrace
  | 0, _, attempts, delays => ⟨attempts, delays, .error "fuel exhausted"⟩
  | fuel + 1, retryCount, attempts, delays =>
    let delays := if 0 < retryCount then delays ++ [retryCount] else delays
    let attempts := attempts + 1
    match env.ackAt retryCount with
    | .ack true => ⟨attempts, delays, .ok ()⟩
    | .ack false =>
      match env.checkAt retryCount with
      | .ok true => ⟨attempts, delays, .ok ()⟩
      | .ok false =>
        if retryCount + 1 ≥ 3 then
          ⟨attempts, delays, .error "Supabase upsert failed after 3 attempts"⟩
        else
          upsertGo env fuel (retryCount + 1) attempts delays
      | .error msg =>
        if retryCount + 1 ≥ 3 then
          ⟨attempts, delays, .error msg⟩
        else
          upsertGo env fuel (retryCount + 1) attempts delays
    | .raised msg =>
      if retryCount + 1 ≥ 3 then
        ⟨attempts, delays, .error msg⟩
      else
        upsertGo env fuel (retryCount + 1) attempts delays

/-- Run the upsert retry loop from its initial state (retry_count = 0,
max_retries = 3). -/
def runUpsert (env : UpsertEnv) : UpsertTrace :=
  upsertGo env 3 0 0 []

/-- Whether attempt k of the upsert loop fails to establish success:
the call raised, or it was ambiguous and the read-after-write check did
not find a row. -/
def attemptFails (env : UpsertEnv) (k : Nat) : Bool :=
  match env.ackAt k with
  | .raised _ => true
  | .ack true => false
  | .ack false =>
    match env.checkAt k with
    | .ok true => false
    | .ok false => true
    | .error _ => true

/-- The exception message the loop re-raises when all three attempts
fail, which is the pending exception of the third attempt. -/
def lastMsg (env : UpsertEnv) : String :=
  match env.ackAt 2 with
  | .raised m => m
  | .ack _ =>
    match env.checkAt 2 with
    | .error m => m
    | .ok _ => "Supabase upsert failed after 3 attempts"

/-- Fixed sentinel text stored when no speech is detected
(services.py:226, the literal meaning "no speech"). -/
def noSpeechSentinel : String := "発話なし"

/-- The strip call of services.py:208: remove whitespace characters
from both ends of the string. -/
def pyStrip (s : String) : String :=
  ⟨((s.data.dropWhile Char.isWhitespace).reverse.dropWhile Char.isWhitespace).reverse⟩

/-- Doubles for the external collaborators used while processing one
work item: the S3 download, the ASR call, the audio_files lookup of
local_date and local_time (ok none means no rows), the persistence
layer, and the current JST hour read by the quota heuristic. -/
structure ItemDeps where
  download : Except String Unit
  asr : Except String ASRResult
  localLookup : Except String (Option (Option String × Option String))
  upsert : UpsertEnv
  hourJST : Nat

/-- One resolved work item: its identity plus collaborator doubles. -/
structure ItemEnv where
  file_path : String
  device_id : String
  recorded_at : String
  deps : ItemDeps

/-- Observable trace of processing one work item: whether the loop body
completed or raised, the transcript row persisted (none when nothing was
stored), whether the temporary file was removed, and whether the quota
warning was logged. -/
structure ItemTrace where
  outcome : Except String Unit
  persisted : Option SpotRecord
  scratchReleased : Bool
  quotaWarned : Bool
  deriving Repr, DecidableEq

/-- Body of the per-item loop (services.py:185-317): create a temporary
file, download from S3, transcribe, strip the text, run the quota
heuristic (logging only), classify empty text as the sentinel, look up
local_date and local_time (failures tolerated), upsert the record with
retries, and delete the temporary file in the finally block on every
path. -/
def processItem (e : ItemEnv) : ItemTrace :=
  match e.deps.download with
  | .error msg => ⟨.error msg, none, true, false⟩
  | .ok _ =>
    match e.deps.asr with
    | .error msg => ⟨.error msg, none, true, false⟩
    | .ok res =>
      let transcription := pyStrip res.transcription
      let quota := decide (transcription = "" ∧ res.nospeech = false ∧ e.deps.hourJST < 9)
      let final_transcription := if transcription = "" then noSpeechSentinel else transcription
      let localFields :=
        match e.deps.localLookup with
        | .ok (some p) => p
        | _ => ((none : Option String), (none : Option String))
      let record : SpotRecord :=
        ⟨e.device_id, e.recorded_at, localFields.1, localFields.2, final_transcription⟩
      match (runUpsert e.deps.upsert).result with
      | .ok _ => ⟨.ok (), some record, true, quota⟩
      | .error msg => ⟨.error msg, none, true, quota⟩

/-- The batch loop over resolved work items (services.py:185-327): each
item is processed under its own try/except, successful items are
appended to successfully_transcribed and failing ones to error_files,
and the loop always moves on to the next item. -/
def runBatchLoop : List ItemEnv → List String × List String
  | [] => ([], [])
  | e :: rest =>
    let tailResult := runBatchLoop rest
    match (processItem e).outcome with
    | .ok _ => (e.file_path :: tailResult.1, tailResult.2)
    | .error _ => (tailResult.1, e.file_path :: tailResult.2)

/-- The summary sub-object of a batch response (services.py:337-341). -/
structure Summary where
  total_files : Nat
  pending_processed : Nat
  errors : Nat
  deriving Repr, DecidableEq

/-- The batch response body (services.py:354-367, legacy interface). -/
structure BatchResponse where
  status : String
  summary : Summary
  processed_files : List String
  error_files : Option (List String)
  deriving Repr, DecidableEq

/-- Work-item resolution for the legacy file_paths interface
(services.py:155-178): each path is looked up in audio_files; a path
whose lookup raises or finds no record is logged and dropped. -/
def resolveItems (resolve : String → Except String (Option (String × String))) :
    List String → List (String × String × String)
  | [] => []
  | fp :: rest =>
    match resolve fp with
    | .ok (some dr) => (fp, dr.1, dr.2) :: resolveItems resolve rest
    | _ => resolveItems resolve rest

/-- The item environments the service builds for the resolved items;
depsOf supplies each path's collaborator doubles. -/
def itemsOf (resolve : String → Except String (Option (String × String)))
    (depsOf : String → ItemDeps) (file_paths : List String) : List ItemEnv :=
  (resolveItems resolve file_paths).map (fun t => ItemEnv.mk t.1 t.2.1 t.2.2 (depsOf t.1))

/-- The service entry point for the legacy file_paths interface
(services.py:52-367): resolve the work items, run the batch loop, and
build the success-shaped response whose summary counts the two result
lists and whose error_files is null when no item failed. -/
def fetch_and_transcribe_files
    (resolve : String → Except String (Option (String × String)))
    (depsOf : String → ItemDeps) (file_paths : List String) : BatchResponse :=
  let pf := runBatchLoop (itemsOf resolve depsOf file_paths)
  { status := "success"
    summary := { total_files := file_paths.length
                 pending_processed := pf.1.length
                 errors := pf.2.length }
    processed_files := pf.1
    error_files := if pf.2.isEmpty then none else some pf.2 }

/-- The batch endpoint (routes.py:194-214): an unsupported model is
rejected with 400 before any work; otherwise the service result is
returned with HTTP 200. -/
def fetch_and_transcribe_route (model : String)
    (resolve : String → Except String (Option (String × String)))
    (depsOf : String → ItemDeps) (file_paths : List String) :
    Nat × Option BatchResponse :=
  if model == "azure" || model == "groq" then
    (200, some (fetch_and_transcribe_files resolve depsOf file_paths))
  else
    (400, none)

/-- Doubles for the two datastore calls made by update_status: the
update (ok hasData / raised) and the fallback insert. -/
structure StatusDb where
  updateCall : Except String Bool
  insertCall : Except String Unit

/-- The status-update operation (services.py:369-405): update the row;
when the update reports no data, insert a fresh status record; any
exception is logged and re-raised.  Returns ok true when a record was
created, ok false when one was updated. -/
def update_status (db : StatusDb) : Except String Bool :=
  match db.updateCall with
  | .error msg => .error msg
  | .ok true => .ok false
  | .ok false =>
    match db.insertCall with
    | .error msg => .error msg
    | .ok _ => .ok true

/-- Doubles for one deferred background run: the item identity, the
outcome of the fetch_and_transcribe_files call, and the outcomes of the
completed and failed status updates. -/
structure BgEnv where
  device_id : String
  recorded_at : String
  pipeline : Except String BatchResponse
  updCompleted : Except String Bool
  updFailed : Except String Bool

/-- Observable trace of one deferred background run: the status writes
attempted, as pairs of value and whether the write itself succeeded,
and the SQS messages published. -/
structure BgTrace where
  statusWrites : List (String × Bool)
  events : List TerminalEvent
  deriving Repr, DecidableEq

/-- The terminal event process_in_background publishes for its item. -/
def bgEvent (env : BgEnv) (status : String) : TerminalEvent :=
  ⟨env.device_id, env.recorded_at, "vibe", status⟩

/-- The deferred unit of work (routes.py:129-191): run the pipeline
call; on success update status to completed and publish the completed
event; any exception — from the pipeline call or from the completed
status update itself — lands in the handler that updates status to
failed (its own failure swallowed) and publishes the failed event. -/
def process_in_background (env : BgEnv) : BgTrace :=
  match env.pipeline with
  | .error _ =>
    ⟨[("failed", exOk env.updFailed)], [bgEvent env "failed"]⟩
  | .ok _ =>
    match env.updCompleted with
    | .ok _ => ⟨[("completed", true)], [bgEvent env "completed"]⟩
    | .error _ =>
      ⟨[("completed", false), ("failed", exOk env.updFailed)], [bgEvent env "failed"]⟩

/-- The async deferred composition (routes.py:135-143): the background
task calls fetch_and_transcribe_files on the single accepted file path
and that call's returned value feeds process_in_background. -/
def asyncBgRun (resolve : String → Except String (Option (String × String)))
    (depsOf : String → ItemDeps) (file_path device_id recorded_at : String)
    (updCompleted updFailed : Except String Bool) : BgTrace :=
  process_in_background
    ⟨device_id, recorded_at,
      .ok (fetch_and_transcribe_files resolve depsOf [file_path]),
      updCompleted, updFailed⟩

/-- Observable outcome of the async endpoint handler. -/
structure AsyncAckTrace where
  httpStatus : Nat
  status : String
  device_id : String
  recorded_at : String
  scheduled : Bool
  statusWriteAttempted : String
  updateFailureLogged : Bool
  deriving Repr, DecidableEq

/-- The async endpoint handler (routes.py:91-126): attempt the initial
processing status update, catching and logging its failure; schedule
the background task; return 202 with the accepted acknowledgment. -/
def async_process (initialUpdate : Except String Bool)
    (device_id recorded_at : String) : Except String AsyncAckTrace :=
  let logged :=
    match initialUpdate with
    | .ok _ => false
    | .error _ => true
  .ok ⟨202, "accepted", device_id, recorded_at, true, "processing", logged⟩

/-- Persistence double whose first call acknowledges with data. -/
def upsertAllOk : UpsertEnv := ⟨fun _ => .ack true, fun _ => .ok false⟩

/-- Persistence double: attempt 1 is ambiguous (success, no row) and
the read-after-write check then finds an existing row. -/
def upsertAmbiguousFound : UpsertEnv :=
  ⟨fun _ => .ack false, fun k => if k == 0 then .ok true else .ok false⟩

/-- Item deps where every collaborator succeeds, the ASR hears the text
t with no-speech flag ns, at JST hour h. -/
def depsOkWith (t : String) (ns : Bool) (h : Nat) : ItemDeps :=
  ⟨.ok (), .ok ⟨t, ns⟩, .ok (some (some "2024-01-01", some "09:00")), upsertAllOk, h⟩

/-- Item deps whose ASR call raises a capability error. -/
def depsAsrRaises : ItemDeps :=
  ⟨.ok (), .error "CapabilityError", .ok (some (some "2024-01-01", some "09:00")),
    upsertAllOk, 12⟩

/-- Resolver double mapping every file path to device d2 at a fixed
recording instant. -/
def resolveD2 : String → Except String (Option (String × String)) :=
  fun _ => .ok (some ("d2", "2024-01-01T00:00:00Z"))

/-- Concrete work item whose ASR result is a single space. -/
def itemWhitespaceOnly : ItemEnv := ⟨"a.wav", "d1", "t1", depsOkWith " " false 12⟩

/-- Concrete work item whose ASR result is the word hello. -/
def itemHello : ItemEnv := ⟨"b.wav", "d1", "t1", depsOkWith "hello" false 12⟩

/-- The record itemHello persists. -/
def recHello : SpotRecord := ⟨"d1", "t1", some "2024-01-01", some "09:00", "hello"⟩

/-- Background env: the deferred pipeline call succeeded with zero item
failures but the completed status update raises. -/
def bgEnvUpdFails : BgEnv :=
  ⟨"d1", "t1",
    .ok (fetch_and_transcribe_files resolveD2 (fun _ => depsOkWith "hi" false 12) ["a.wav"]),
    .error "db down", .ok false⟩

/-- Background env whose deferred pipeline call itself raises. -/
def bgEnvPipelineRaises : BgEnv := ⟨"d2", "t2", .error "boom", .ok false, .ok false⟩

/-- One non-final iteration of the retry loop: a non-failing attempt
returns success, a failing one recurses with the counter bumped. -/
theorem upsertGo_step (env : UpsertEnv) (fuel rc attempts : Nat) (delays : List Nat)
    (hrc : rc + 1 < 3) :
    upsertGo env (fuel + 1) rc attempts delays =
      if attemptFails env rc
      then upsertGo env fuel (rc + 1) (attempts + 1)
        (if 0 < rc then delays ++ [rc] else delays)
      else ⟨attempts + 1, (if 0 < rc then delays ++ [rc] else delays), .ok ()⟩ := by
  have hge : ¬ rc + 1 ≥ 3 := by omega
  rcases h : env.ackAt rc with m | b
  · simp [upsertGo, attemptFails, h, hge]
  · cases b
    · rcases hc : env.checkAt rc with m | b
      · simp [upsertGo, attemptFails, h, hc, hge]
      · cases b <;> simp [upsertGo, attemptFails, h, hc, hge]
    · simp [upsertGo, attemptFails, h]

/-- The final iteration (retry counter 2): a failing attempt re-raises
the pending exception, a non-failing one returns success. -/
theorem upsertGo_last (env : UpsertEnv) (fuel attempts : Nat) (delays : List Nat) :
    upsertGo env (fuel + 1) 2 attempts delays =
      if attemptFails env 2
      then ⟨attempts + 1, delays ++ [2], .error (lastMsg env)⟩
      else ⟨attempts + 1, delays ++ [2], .ok ()⟩ := by
  rcases h : env.ackAt 2 with m | b
  · simp [upsertGo, attemptFails, lastMsg, h]
  · cases b
    · rcases hc : env.checkAt 2 with m | b
      · simp [upsertGo, attemptFails, lastMsg, h, hc]
      · cases b <;> simp [upsertGo, attemptFails, lastMsg, h, hc]
    · simp [upsertGo, attemptFails, lastMsg, h]

/-- Closed-form description of the upsert retry loop: it succeeds at
the first non-failing attempt (making 1, 2 or 3 calls with sleeps 1s
then 2s before retries) and raises only when all three attempts fail. -/
theorem runUpsert_spec (env : UpsertEnv) :
    runUpsert env =
      if attemptFails env 0 = false then ⟨1, [], .ok ()⟩
      else if attemptFails env 1 = false then ⟨2, [1], .ok ()⟩
      else if attemptFails env 2 = false then ⟨3, [1, 2], .ok ()⟩
      else ⟨3, [1, 2], .error (lastMsg env)⟩ := by
  have h3 : runUpsert env = upsertGo env (2 + 1) 0 0 [] := rfl
  rw [h3, upsertGo_step env 2 0 0 [] (by omega)]
  cases hf0 : attemptFails env 0
  · simp [hf0]
  · simp only [hf0, if_true, Nat.lt_irrefl, if_false, Bool.true_eq_false]
    have h2 : (2 : Nat) = 1 + 1 := rfl
    rw [h2, upsertGo_step env 1 1 1 [] (by omega)]
    cases hf1 : attemptFails env 1
    · simp [hf1]
    · simp only [hf1, if_true, Nat.zero_lt_one, List.nil_append, Bool.true_eq_false]
      have h1 : (1 : Nat) = 0 + 1 := rfl
      rw [h1, upsertGo_last env 0 2 [1]]
      cases hf2 : attemptFails env 2
      · simp [hf2]
      · simp [hf2]

/-- Claim C8: the per-item scratch storage (the temporary local file)
is released on every exit path of the pipeline: after successful
persistence, after the no-speech classification branch, and when the
download, the ASR call, the lookup or the upsert raises. -/
theorem scratch_released_on_every_path (e : ItemEnv) :
    (processItem e).scratchReleased = true := by
  unfold processItem
  rcases hd : e.deps.download with m | u
  · simp
  · rcases ha : e.deps.asr with m | res
    · simp
    · rcases hu : (runUpsert e.deps.upsert).result with m | u <;> simp [hu]

/-- Claim C5: for every accepted async work item, the deferred unit of
work publishes exactly one terminal event: never zero and never two,
whether the pipeline call succeeds or raises, and whatever the status
updates themselves do. -/
theorem exactly_one_terminal_event (env : BgEnv) :
    (process_in_background env).events.length = 1 := by
  unfold process_in_background
  rcases env.pipeline with m | resp
  · simp
  · rcases env.updCompleted with m | b <;> simp

/-- Claim C10: the async endpoint always returns the 202 accepted
acknowledgment carrying the device and timestamp, schedules the
background task, attempts the processing status write first, and never
surfaces a failure of that initial status update to the caller. -/
theorem async_accept_contract (u : Except String Bool) (d r : String) :
    exOk (async_process u d r) = true ∧
    async_process u d r = .ok ⟨202, "accepted", d, r, true, "processing", !(exOk u)⟩ := by
  rcases u with m | b <;> exact ⟨rfl, rfl⟩

/-- Claim C7: the quota-exhaustion heuristic is advisory: the persisted
record and the item outcome are identical for any two clock readings,
and the warning fires only when the stripped ASR text is empty, the
no-speech flag is false and the JST hour is before 09:00. -/
theorem quota_heuristic_is_advisory (fp d r : String) (deps : ItemDeps) (h1 h2 : Nat) :
    ((processItem ⟨fp, d, r, { deps with hourJST := h1 }⟩).persisted
      = (processItem ⟨fp, d, r, { deps with hourJST := h2 }⟩).persisted) ∧
    ((processItem ⟨fp, d, r, { deps with hourJST := h1 }⟩).outcome
      = (processItem ⟨fp, d, r, { deps with hourJST := h2 }⟩).outcome) ∧
    ((processItem ⟨fp, d, r, deps⟩).quotaWarned = true →
      deps.hourJST < 9 ∧ ∃ res, deps.asr = .ok res ∧
        pyStrip res.transcription = "" ∧ res.nospeech = false) := by
  unfold processItem
  rcases hd : deps.download with m | u
  · simp
  · rcases ha : deps.asr with m | res
    · simp
    · rcases hu : (runUpsert deps.upsert).result with m | u <;>
        simp [hu] <;> intro hq1 hq2 hq3 <;> exact ⟨hq3, hq1, hq2⟩

/-- The processed list of the batch loop is exactly the file paths of
the items whose processing succeeded, in order. -/
theorem runBatchLoop_processed (items : List ItemEnv) :
    (runBatchLoop items).1 =
      (items.filter (fun e => exOk (processItem e).outcome)).map ItemEnv.file_path := by
  induction items with
  | nil => simp [runBatchLoop]
  | cons e rest ih =>
    rcases h : (processItem e).outcome with m | u <;>
      simp [runBatchLoop, h, exOk, ih]

/-- The errored list of the batch loop is exactly the file paths of the
items whose processing raised, in order. -/
theorem runBatchLoop_errored (items : List ItemEnv) :
    (runBatchLoop items).2 =
      (items.filter (fun e => !(exOk (processItem e).outcome))).map ItemEnv.file_path := by
  induction items with
  | nil => simp [runBatchLoop]
  | cons e rest ih =>
    rcases h : (processItem e).outcome with m | u <;>
      simp [runBatchLoop, h, exOk, ih]

/-- The two result lists of the batch loop partition the items. -/
theorem runBatchLoop_length (items : List ItemEnv) :
    (runBatchLoop items).1.length + (runBatchLoop items).2.length = items.length := by
  induction items with
  | nil => simp [runBatchLoop]
  | cons e rest ih =>
    rcases h : (processItem e).outcome with m | u <;>
      simp [runBatchLoop, h] <;> omega

/-- Claim C4: every resolved work item lands in exactly one of the
processed and errored lists (the succeeding items in the first, the
raising ones in the second, so one item's failure never removes later
items), and the reported counts always satisfy
processed + errors = number of resolved work items. -/
theorem batch_accounting (items : List ItemEnv)
    (resolve : String → Except String (Option (String × String)))
    (depsOf : String → ItemDeps) (paths : List String) :
    ((runBatchLoop items).1 =
      (items.filter (fun e => exOk (processItem e).outcome)).map ItemEnv.file_path) ∧
    ((runBatchLoop items).2 =
      (items.filter (fun e => !(exOk (processItem e).outcome))).map ItemEnv.file_path) ∧
    ((runBatchLoop items).1.length + (runBatchLoop items).2.length = items.length) ∧
    ((fetch_and_transcribe_files resolve depsOf paths).summary.pending_processed
      + (fetch_and_transcribe_files resolve depsOf paths).summary.errors
      = (itemsOf resolve depsOf paths).length) :=
  ⟨runBatchLoop_processed items, runBatchLoop_errored items, runBatchLoop_length items,
    runBatchLoop_length (itemsOf resolve depsOf paths)⟩

/-- Claim C9: the batch endpoint answers a supported model with HTTP
200 and the service's success-shaped body whatever the per-item
outcomes; when every resolved item errored the failures are visible
only in the errors count (and the error-files list), while the
top-level status still reads success. -/
theorem batch_reports_success_shape (model : String)
    (resolve : String → Except String (Option (String × String)))
    (depsOf : String → ItemDeps) (paths : List String)
    (hm : model = "azure" ∨ model = "groq") :
    (fetch_and_transcribe_route model resolve depsOf paths).1 = 200 ∧
    (fetch_and_transcribe_route model resolve depsOf paths).2 =
      some (fetch_and_transcribe_files resolve depsOf paths) ∧
    (fetch_and_transcribe_files resolve depsOf paths).status = "success" ∧
    ((∀ e ∈ itemsOf resolve depsOf paths, exOk (processItem e).outcome = false) →
      (fetch_and_transcribe_files resolve depsOf paths).processed_files = [] ∧
      (fetch_and_transcribe_files resolve depsOf paths).summary.errors
        = (itemsOf resolve depsOf paths).length) := by
  have hroute : (model == "azure" || model == "groq") = true := by
    rcases hm with h | h <;> simp [h]
  refine ⟨?_, ?_, rfl, ?_⟩
  · simp [fetch_and_transcribe_route, hroute]
  · simp [fetch_and_transcribe_route, hroute]
  · intro hall
    constructor
    · show (runBatchLoop (itemsOf resolve depsOf paths)).1 = []
      rw [runBatchLoop_processed]
      simp only [List.map_eq_nil_iff, List.filter_eq_nil_iff]
      intro e he
      simp [hall e he]
    · show (runBatchLoop (itemsOf resolve depsOf paths)).2.length = _
      rw [runBatchLoop_errored]
      simp only [List.length_map]
      rw [List.filter_length_eq_length.mpr]
      intro e he
      simp [hall e he]

/-- Claim C9 witness: a one-item batch whose only item's ASR call
raises still gets HTTP 200, top-level status success, an empty
processed list, and an errors count equal to the resolved item count. -/
theorem batch_reports_success_shape_witness :
    (fetch_and_transcribe_route "groq" resolveD2 (fun _ => depsAsrRaises) ["x.wav"]).1 = 200 ∧
    (fetch_and_transcribe_files resolveD2 (fun _ => depsAsrRaises) ["x.wav"]).status = "success" ∧
    (fetch_and_transcribe_files resolveD2 (fun _ => depsAsrRaises) ["x.wav"]).processed_files = [] ∧
    (fetch_and_transcribe_files resolveD2 (fun _ => depsAsrRaises) ["x.wav"]).summary.errors
      = (itemsOf resolveD2 (fun _ => depsAsrRaises) ["x.wav"]).length := by
  have h := batch_reports_success_shape "groq" resolveD2 (fun _ => depsAsrRaises)
    ["x.wav"] (Or.inr rfl)
  have hall : ∀ e ∈ itemsOf resolveD2 (fun _ => depsAsrRaises) ["x.wav"],
      exOk (processItem e).outcome = false := by decide
  exact ⟨h.1, h.2.2.1, (h.2.2.2 hall).1, (h.2.2.2 hall).2⟩

/-- Claim C7 witness: at JST hour 3 with empty ASR text and the
no-speech flag false the warning fires, and the heuristic's conditions
are recoverable from it. -/
theorem quota_heuristic_witness :
    (processItem ⟨"q.wav", "d1", "t1", depsOkWith "" false 3⟩).quotaWarned = true ∧
    ((depsOkWith "" false 3).hourJST < 9 ∧ ∃ res, (depsOkWith "" false 3).asr = .ok res ∧
      pyStrip res.transcription = "" ∧ res.nospeech = false) :=
  ⟨by decide,
    (quota_heuristic_is_advisory "q.wav" "d1" "t1" (depsOkWith "" false 3) 3 3).2.2 (by decide)⟩

/-- Claim C3: the persistence upsert makes between one and three
attempts, sleeping k seconds before the k+1st attempt (1s then 2s), an
ambiguous first acknowledgment whose read-after-write check finds an
existing row counts as an immediate success, and the call raises
exactly when every attempt made fails to establish success. -/
theorem upsert_retry_policy (env : UpsertEnv) :
    1 ≤ (runUpsert env).attempts ∧
    (runUpsert env).attempts ≤ 3 ∧
    (runUpsert env).delays = List.take ((runUpsert env).attempts - 1) [1, 2] ∧
    (env.ackAt 0 = .ack false → env.checkAt 0 = .ok true →
      runUpsert env = ⟨1, [], .ok ()⟩) ∧
    (exOk (runUpsert env).result = false ↔
      (attemptFails env 0 = true ∧ attemptFails env 1 = true ∧ attemptFails env 2 = true)) := by
  have h4 : env.ackAt 0 = .ack false → env.checkAt 0 = .ok true →
      runUpsert env = ⟨1, [], .ok ()⟩ := by
    intro ha hc
    have h0 : attemptFails env 0 = false := by simp [attemptFails, ha, hc]
    rw [runUpsert_spec env]
    simp [h0]
  refine ⟨?_, ?_, ?_, h4, ?_⟩ <;>
    (rw [runUpsert_spec env]
     cases hf0 : attemptFails env 0 <;> cases hf1 : attemptFails env 1 <;>
       cases hf2 : attemptFails env 2 <;> simp [exOk])

/-- Claim C3 witness: the doubles of Scenario C — attempt 1 ambiguous,
reconciliation read finds the row — give one attempt, no sleeps, and
success. -/
theorem upsert_retry_policy_witness :
    upsertAmbiguousFound.ackAt 0 = .ack false ∧
    upsertAmbiguousFound.checkAt 0 = .ok true ∧
    runUpsert upsertAmbiguousFound = ⟨1, [], .ok ()⟩ :=
  ⟨rfl, rfl, (upsert_retry_policy upsertAmbiguousFound).2.2.2.1 rfl rfl⟩

/-- Claim C6 counterexample: an ASR text of one space is non-empty, yet
the persisted transcript is the sentinel rather than that text, because
the code classifies the stripped text. -/
theorem whitespace_text_stored_as_sentinel :
    (" " : String) ≠ "" ∧
    (processItem itemWhitespaceOnly).persisted =
      some ⟨"d1", "t1", some "2024-01-01", some "09:00", noSpeechSentinel⟩ ∧
    noSpeechSentinel ≠ " " := by
  exact ⟨by decide, by decide, by decide⟩

/-- Claim C6 amended: classification happens on the
whitespace-stripped ASR text: when the stripped text is empty (whatever
the no-speech flag) the persisted transcript is the fixed non-empty
sentinel, and when the stripped text is non-empty the persisted
transcript equals the stripped text. -/
theorem sentinel_classification (e : ItemEnv) (res : ASRResult) (rec : SpotRecord)
    (ha : e.deps.asr = .ok res) (hp : (processItem e).persisted = some rec) :
    rec.vibe_transcriber_result =
      (if pyStrip res.transcription = "" then noSpeechSentinel else pyStrip res.transcription) ∧
    noSpeechSentinel ≠ "" := by
  refine ⟨?_, by decide⟩
  unfold processItem at hp
  rcases hd : e.deps.download with m | u <;> rw [hd] at hp
  · simp at hp
  · rw [ha] at hp
    rcases hu : (runUpsert e.deps.upsert).result with m | u <;> simp [hu] at hp
    rw [← hp]

/-- Claim C6 witness: the item whose ASR hears hello persists exactly
the text hello. -/
theorem sentinel_classification_witness :
    (processItem itemHello).persisted = some recHello ∧
    (recHello.vibe_transcriber_result =
      (if pyStrip "hello" = "" then noSpeechSentinel else pyStrip "hello") ∧
     noSpeechSentinel ≠ "") :=
  ⟨by decide, sentinel_classification itemHello ⟨"hello", false⟩ recHello rfl (by decide)⟩

/-- Claim C1 counterexample: for the async item x.wav whose ASR call
raises a capability error, the deferred run sets status completed and
publishes one terminal event with status completed — not failed —
because the batch call catches the per-item failure and returns a
success-shaped result. -/
theorem asr_failure_yields_completed_event :
    asyncBgRun resolveD2 (fun _ => depsAsrRaises) "x.wav" "d2" "2024-01-01T00:00:00Z"
        (.ok false) (.ok false) =
      ⟨[("completed", true)], [⟨"d2", "2024-01-01T00:00:00Z", "vibe", "completed"⟩]⟩ ∧
    ("completed" : String) ≠ "failed" :=
  ⟨by decide, by decide⟩

/-- Claim C1 amended: only when the deferred batch call itself raises
does the deferred run set status failed (best-effort) and publish
exactly one terminal event with status failed; when the batch call
returns — as it does even if the single item's ASR raised, since the
per-item failure is caught inside it — and the completed status update
succeeds, the run sets status completed and publishes exactly one
completed event. -/
theorem deferred_failure_event (env : BgEnv) :
    (∀ msg, env.pipeline = .error msg →
      (process_in_background env).statusWrites = [("failed", exOk env.updFailed)] ∧
      (process_in_background env).events = [bgEvent env "failed"]) ∧
    (∀ resp b, env.pipeline = .ok resp → env.updCompleted = .ok b →
      (process_in_background env).statusWrites = [("completed", true)] ∧
      (process_in_background env).events = [bgEvent env "completed"]) := by
  constructor
  · intro msg hmsg
    unfold process_in_background
    rw [hmsg]
    exact ⟨rfl, rfl⟩
  · intro resp b hresp hb
    unfold process_in_background
    rw [hresp, hb]
    exact ⟨rfl, rfl⟩

/-- Claim C1 witness: with a raising pipeline double and a succeeding
failed-status update, the deferred run records the failed status write
and the single failed event. -/
theorem deferred_failure_event_witness :
    (process_in_background bgEnvPipelineRaises).statusWrites = [("failed", true)] ∧
    (process_in_background bgEnvPipelineRaises).events = [⟨"d2", "t2", "vibe", "failed"⟩] := by
  have h := (deferred_failure_event bgEnvPipelineRaises).1 "boom" rfl
  simpa [bgEvent, bgEnvPipelineRaises, exOk] using h

/-- Claim C2 counterexample: update_status re-raises its failure to the
caller, and when the completed-status update fails after a deferred
pipeline call that succeeded with zero item errors, the single terminal
event published carries status failed — the reported outcome flips. -/
theorem status_update_failure_escalates :
    update_status ⟨.error "db down", .ok ()⟩ = .error "db down" ∧
    (fetch_and_transcribe_files resolveD2 (fun _ => depsOkWith "hi" false 12)
      ["a.wav"]).summary.errors = 0 ∧
    (process_in_background bgEnvUpdFails).events = [⟨"d1", "t1", "vibe", "failed"⟩] :=
  ⟨rfl, by decide, by decide⟩

/-- Claim C2 amended: a failing setStatus call logs and re-raises; each
call site contains the failure, so the endpoint caller never observes
it and exactly one terminal event is still published for the item — but
on the deferred success path a failing completed-status update diverts
the run to the failure branch, so the one event published says failed
although the transcription outcome was computed successfully. -/
theorem status_update_containment (db : StatusDb) (msg : String) (env : BgEnv)
    (u : Except String Bool) (d r : String) :
    (db.updateCall = .error msg → update_status db = .error msg) ∧
    exOk (async_process u d r) = true ∧
    (process_in_background env).events.length = 1 ∧
    (∀ resp, env.pipeline = .ok resp → env.updCompleted = .error msg →
      (process_in_background env).statusWrites =
        [("completed", false), ("failed", exOk env.updFailed)] ∧
      (process_in_background env).events = [bgEvent env "failed"]) := by
  refine ⟨?_, rfl, ?_, ?_⟩
  · intro h
    unfold update_status
    rw [h]
  · unfold process_in_background
    rcases env.pipeline with m | resp
    · simp
    · rcases env.updCompleted with m | b <;> simp
  · intro resp hresp hupd
    unfold process_in_background
    rw [hresp, hupd]
    exact ⟨rfl, rfl⟩

/-- Claim C2 witness: the concrete failing status-update double is
re-raised by update_status, and the deferred run whose completed update
fails still publishes exactly one event, the failed one. -/
theorem status_update_containment_witness :
    update_status ⟨.error "db down", .ok ()⟩ = .error "db down" ∧
    (process_in_background bgEnvUpdFails).statusWrites =
      [("completed", false), ("failed", true)] ∧
    (process_in_background bgEnvUpdFails).events = [⟨"d1", "t1", "vibe", "failed"⟩] := by
  have h := status_update_containment ⟨.error "db down", .ok ()⟩ "db down" bgEnvUpdFails
    (.ok false) "d" "r"
  have h4 := h.2.2.2 (fetch_and_transcribe_files resolveD2
    (fun _ => depsOkWith "hi" false 12) ["a.wav"]) rfl rfl
  exact ⟨h.1 rfl, by simpa [bgEnvUpdFails, exOk] using h4.1,
    by simpa [bgEvent, bgEnvUpdFails] using h4.2⟩
